import Mathlib

/-!
Shallow embedding of `cloudsshspawner/cloudsshspawner.py` (class
`CloudSSHSpawner`) and proofs about it.

Modelling conventions:
  * The mutable traitlets of the spawner instance that the lifecycle methods
    read and write (`pid`, `remote_host`, `remote_port`) become the explicit
    record `SpawnerState`; methods become functions threading that record.
  * The SSH transport (`asyncssh.connect` + `conn.run`) is modelled as an
    oracle `run : String → RemoteResult` mapping a remote command string to
    the completed process result; per the transport contract `stdout` and
    `stderr` are byte strings, modelled as `String`.  Each function also
    returns the list of remote commands it issued, one per opened session,
    so "no remote call" and "exactly one session" are statable.
  * Python exceptions (`ValueError` from `int(...)`, `IndexError` from
    `random.choice` on an empty sequence) become an `Except PyError` result.
  * Local-filesystem side effects (reading the ssh key and certificate,
    writing the `/tmp` launch scripts, `shutil` copies/moves, the scp
    upload, logging) do not influence any value computed here and are not
    part of the state record; they are noted in comments where they occur
    in the source.
-/

namespace CloudSSHSpawner

/-- Result of running one remote command over the transport, as the
transport contract exposes it: standard output, standard error and the
exit status. -/
structure RemoteResult where
  stdout : String
  stderr : String
  exit_status : Int
deriving Repr, DecidableEq

/-- Python exceptions that the embedded fragments can raise. -/
inductive PyError where
  /-- raised by `random.choice` on an empty sequence -/
  | indexError
  /-- raised by `int(...)` on a malformed literal -/
  | valueError
deriving Repr, DecidableEq

/-- The spawner's mutable per-session traits used by the lifecycle methods:
`pid` (trait default 0), `remote_host` (trait default, also the sentinel,
"remote_host") and `remote_port` (trait default "22"). -/
structure SpawnerState where
  pid : Int
  remote_host : String
  remote_port : String
deriving Repr, DecidableEq

/-- The trait defaults: `pid = 0`, `remote_host = "remote_host"`,
`remote_port = "22"`. -/
def default_state : SpawnerState :=
  { pid := 0, remote_host := "remote_host", remote_port := "22" }

/-- `clear_state`: resets `remote_host` to the sentinel string and `pid`
to 0 (`remote_port` is left untouched; the base-class part clears fields
outside this record). -/
def clear_state (st : SpawnerState) : SpawnerState :=
  { st with remote_host := "remote_host", pid := 0 }

/-- The persisted state mapping built by `get_state` / consumed by
`load_state`: a flat record with optional keys `pid` and `remote_host`
(`none` models an absent key). -/
structure PersistedState where
  pid : Option Int
  remote_host : Option String
deriving Repr, DecidableEq

/-- `get_state`: starts from the (empty, for this record) base-class state
and adds `pid` under `if self.pid:` (Python int truthiness, i.e. `pid ≠ 0`)
and `remote_host` under `if self.remote_host:` (Python str truthiness,
i.e. the string is non-empty). -/
def get_state (st : SpawnerState) : PersistedState :=
  { pid := if st.pid ≠ 0 then some st.pid else none,
    remote_host := if st.remote_host ≠ "" then some st.remote_host else none }

/-- `load_state`: copies `state["pid"]` into `pid` when the key is present,
then `state["remote_host"]` into `remote_host` when present; absent keys
leave the field as it was. -/
def load_state (st : SpawnerState) (state : PersistedState) : SpawnerState :=
  let st1 :=
    match state.pid with
    | some p => { st with pid := p }
    | none => st
  match state.remote_host with
  | some h => { st1 with remote_host := h }
  | none => st1

/-- Rendering of `"kill -s %s %d < /dev/null" % (sig, self.pid)`; `%s` on a
Python int and `%d` both print the decimal representation, as `toString`
on `Int` does. -/
def kill_command (sig pid : Int) : String :=
  "kill -s " ++ toString sig ++ " " ++ toString pid ++ " < /dev/null"

/-- `remote_signal(sig)`: renders the kill command for `sig` and `self.pid`,
opens one session, runs it, and returns `retcode == 0`.  (Reading the ssh
key/certificate and the debug log line are local effects, omitted.)
First component: the remote commands issued, one per session. -/
def remote_signal (st : SpawnerState) (run : String → RemoteResult)
    (sig : Int) : List String × Bool :=
  let command := kill_command sig st.pid
  ([command], (run command).exit_status == 0)

/-- Outcome of one `poll` call: the remote commands issued, the returned
value (`none` models Python `None`, the "still running" marker; `some c`
models returning exit code `c`), and the spawner state afterwards. -/
structure PollOutcome where
  sessions : List String
  result : Option Int
  state : SpawnerState
deriving Repr, DecidableEq

/-- `poll`: under `if not self.pid:` (i.e. `pid = 0`) clears state and
returns 0 with no remote call; otherwise sends signal 0 via
`remote_signal` and returns `None` when alive, else clears state and
returns 0.  (The source writes the not-alive branch first; the two
branches are the same here.) -/
def poll (st : SpawnerState) (run : String → RemoteResult) : PollOutcome :=
  if st.pid = 0 then
    { sessions := [], result := some 0, state := clear_state st }
  else
    let alive := remote_signal st run 0
    if alive.2 then
      { sessions := alive.1, result := none, state := st }
    else
      { sessions := alive.1, result := some 0, state := clear_state st }

/-- `stop`: discards the result of `remote_signal(15)` and then calls
`clear_state` unconditionally.  First component: the remote commands
issued. -/
def stop (st : SpawnerState) (run : String → RemoteResult) :
    List String × SpawnerState :=
  let r := remote_signal st run 15
  (r.1, clear_state st)

/-- C1: `poll()` with `pid = 0` clears the state and returns exit code 0
issuing no remote command; with `pid ≠ 0` it issues exactly one remote
session running the signal-0 kill command for that pid, returns the
still-running marker `none` exactly when that command's exit status is 0,
and otherwise clears the state and returns exit code 0 (when alive the
state is left unchanged). -/
theorem poll_spec (st : SpawnerState) (run : String → RemoteResult) :
    (st.pid = 0 →
      poll st run =
        { sessions := [], result := some 0, state := clear_state st })
    ∧ (st.pid ≠ 0 →
        (poll st run).sessions = [kill_command 0 st.pid]
        ∧ ((poll st run).result = none ↔
            (run (kill_command 0 st.pid)).exit_status = 0)
        ∧ ((run (kill_command 0 st.pid)).exit_status = 0 →
            (poll st run).state = st)
        ∧ ((run (kill_command 0 st.pid)).exit_status ≠ 0 →
            (poll st run).result = some 0
            ∧ (poll st run).state = clear_state st)) := by
  constructor
  · intro h
    simp [poll, h]
  · intro h
    simp only [poll, remote_signal, if_neg h]
    by_cases hz : (run (kill_command 0 st.pid)).exit_status = 0 <;>
      simp [hz]

/-- Witness for `poll_spec` at concrete inputs: pid 0 short-circuits, and
pid 42 with an exit-status-1 oracle clears state and returns 0. -/
theorem poll_spec_witness :
    poll { pid := 0, remote_host := "h1", remote_port := "22" }
        (fun _ => { stdout := "", stderr := "", exit_status := 1 }) =
      { sessions := [], result := some 0,
        state := { pid := 0, remote_host := "remote_host", remote_port := "22" } }
    ∧ (poll { pid := 42, remote_host := "h1", remote_port := "22" }
        (fun _ => { stdout := "", stderr := "", exit_status := 1 })).result = some 0 := by
  have h1 := poll_spec { pid := 0, remote_host := "h1", remote_port := "22" }
    (fun _ => { stdout := "", stderr := "", exit_status := 1 })
  have h2 := poll_spec { pid := 42, remote_host := "h1", remote_port := "22" }
    (fun _ => { stdout := "", stderr := "", exit_status := 1 })
  exact ⟨h1.1 rfl, ((h2.2 (by decide)).2.2.2 (by decide)).1⟩

/-- C2: `stop()` issues exactly one remote session running the signal-15
kill command for the tracked pid, and afterwards the state is cleared
(pid 0, host reset to the sentinel) for every oracle, in particular
regardless of the remote command's exit status. -/
theorem stop_spec (st : SpawnerState) (run : String → RemoteResult) :
    (stop st run).1 = ["kill -s 15 " ++ toString st.pid ++ " < /dev/null"]
    ∧ (stop st run).2.pid = 0
    ∧ (stop st run).2.remote_host = "remote_host" := by
  exact ⟨rfl, rfl, rfl⟩

/-- C9: for a state with `pid = 0`, `stop()` does not short-circuit: it
still opens one remote session whose rendered command is exactly
`kill -s 15 0 < /dev/null`, and then clears the state. -/
theorem stop_pid_zero_spec (host port : String) (run : String → RemoteResult) :
    (stop { pid := 0, remote_host := host, remote_port := port } run).1 =
      ["kill -s 15 0 < /dev/null"]
    ∧ (stop { pid := 0, remote_host := host, remote_port := port } run).2 =
      { pid := 0, remote_host := "remote_host", remote_port := port } := by
  exact ⟨rfl, rfl⟩

/-- Whitespace characters stripped by Python `int(str)` before parsing
(the ASCII ones: space, tab, newline, carriage return, vertical tab,
form feed). -/
def isPySpace (c : Char) : Bool :=
  c = ' ' || c = '\t' || c = '\n' || c = '\r' || c = '\x0b' || c = '\x0c'

/-- Digit run of a Python integer literal after the first digit: decimal
digits, where a single underscore may stand between two digits. -/
def pyDigitsAux : List Char → Nat → Option Nat
  | [], acc => some acc
  | c :: rest, acc =>
    if c.isDigit then pyDigitsAux rest (acc * 10 + (c.toNat - 48))
    else if c = '_' then
      match rest with
      | d :: rest2 =>
        if d.isDigit then pyDigitsAux rest2 (acc * 10 + (d.toNat - 48)) else none
      | [] => none
    else none

/-- Digit run of a Python integer literal: at least one digit, underscores
only between digits. -/
def pyDigits : List Char → Option Nat
  | [] => none
  | c :: rest => if c.isDigit then pyDigitsAux rest (c.toNat - 48) else none

/-- Python `int(s)` on a `str`: strips surrounding whitespace, accepts an
optional sign followed by a digit run, and raises `ValueError` (here:
`none`) on anything else. -/
def pythonInt (s : String) : Option Int :=
  let cs := ((s.data.dropWhile isPySpace).reverse.dropWhile isPySpace).reverse
  match cs with
  | '+' :: rest => (pyDigits rest).map (fun n => (n : Int))
  | '-' :: rest => (pyDigits rest).map (fun n => -(n : Int))
  | rest => (pyDigits rest).map (fun n => (n : Int))

/-- Default of the `remote_port_command` trait. -/
def remote_port_command_default : String :=
  "/usr/bin/python /usr/local/bin/get_port.py"

/-- `remote_random_port`: opens one session, runs the configured
`remote_port_command`, and inspects `result.stdout`.  Non-empty stdout is
fed to `int(...)` (a malformed value raises `ValueError`); empty stdout
yields `port = None` after logging stderr and the exit status (logging
omitted).  Returns `(ip, port)` with `ip = self.remote_host`.  First
component: the remote commands issued, one per session.  (Reading the ssh
key/certificate is a local effect, omitted.) -/
def remote_random_port (remote_port_command : String) (st : SpawnerState)
    (run : String → RemoteResult) :
    List String × Except PyError (String × Option Int) :=
  let result := run remote_port_command
  let stdout := result.stdout
  let portE : Except PyError (Option Int) :=
    if stdout ≠ "" then
      match pythonInt stdout with
      | some p => .ok (some p)
      | none => .error .valueError
    else .ok none
  ([remote_port_command], portE.map (fun port => (st.remote_host, port)))

/-- `random.choice(seq)`: `seq[randbelow(len(seq))]`, raising `IndexError`
on an empty sequence.  The randomness source is the explicit `r`; for a
non-empty sequence the chosen index is `r % len(seq)`, covering every
possible draw. -/
def random_choice (seq : List String) (r : Nat) : Except PyError String :=
  if h : seq.length = 0 then .error .indexError
  else .ok (seq.get ⟨r % seq.length, Nat.mod_lt _ (Nat.pos_of_ne_zero h)⟩)

/-- `choose_remote_host`: `random.choice(self.remote_hosts)`. -/
def choose_remote_host (remote_hosts : List String) (r : Nat) :
    Except PyError String :=
  random_choice remote_hosts r

/-- Launch script built by `exec_notebook`: the shebang, then the loop
`for item in env.items(): bash_script_str += "export %s=%s\n" % item`
(one export statement per entry, in the mapping's iteration order — the
environment is modelled as the association list `env` in that order),
then the fixed unset/touch/chmod lines, the backgrounded command line,
and the pid echo. -/
def bash_script (command : String) (env : List (String × String)) : String :=
  env.foldl
      (fun acc item => acc ++ ("export " ++ item.1 ++ "=" ++ item.2 ++ "\n"))
      "#!/bin/bash\n"
    ++ "unset XDG_RUNTIME_DIR\n"
    ++ "touch .jupyter.log\n"
    ++ "chmod 600 .jupyter.log\n"
    ++ (command ++ " < /dev/null >> .jupyter.log 2>&1 & pid=$!\n")
    ++ "echo $pid\n"

/-- Prepending a string to a string join. -/
theorem join_cons (a : String) (l : List String) :
    String.join (a :: l) = a ++ String.join l := by
  simp only [String.join_eq]
  rfl

/-- A left fold that appends `f` of each element equals the initial string
followed by the join of the mapped list. -/
theorem foldl_append_join (f : String × String → String)
    (env : List (String × String)) (init : String) :
    env.foldl (fun acc p => acc ++ f p) init = init ++ String.join (env.map f) := by
  induction env generalizing init with
  | nil =>
    have h : String.join ([] : List String) = "" := rfl
    rw [List.foldl_nil, List.map_nil, h, String.append_empty]
  | cons a t ih =>
    rw [List.foldl_cons, List.map_cons, ih, join_cons, String.append_assoc]

/-- `exec_notebook`: renders the launch script for `command` and the
environment, writes it to the local `/tmp` run file (local effect,
omitted), opens one session and runs `bash -s` with the script on
standard input, then parses stdout: non-empty stdout is fed to `int(...)`
(`ValueError` on a malformed value), empty stdout returns the sentinel
-1.  The oracle `run_bash` maps the transmitted script to the remote
result; the issued session's command is `bash -s`. -/
def exec_notebook (command : String) (env : List (String × String))
    (run_bash : String → RemoteResult) : List String × Except PyError Int :=
  let script := bash_script command env
  let result := run_bash script
  (["bash -s"],
    if result.stdout ≠ "" then
      match pythonInt result.stdout with
      | some pid => .ok pid
      | none => .error .valueError
    else .ok (-1))

/-- Rewriting pass of `start` for the hub api url: when the
`hub_api_url` trait is non-empty, every argument equal to
`--hub-api-url=<hub.api_url>` is replaced by `--hub-api-url=<hub_api_url>`. -/
def rewrite_hub_api (hub_api_url hub_default_api_url : String)
    (cmd : List String) : List String :=
  if hub_api_url ≠ "" then
    cmd.map (fun value =>
      if value = "--hub-api-url=" ++ hub_default_api_url then
        "--hub-api-url=" ++ hub_api_url
      else value)
  else cmd

/-- Rewriting pass of `start` for the port flag: every argument whose
first six characters are `--port` (`value[0:6] == "--port"`) is replaced
by `--port=<port>` (`"--port=%d" % port`). -/
def rewrite_port_flag (port : Int) (cmd : List String) : List String :=
  cmd.map (fun value =>
    if value.take 6 = "--port" then "--port=" ++ toString port else value)

/-- Configuration traits that `start` reads. -/
structure StartConfig where
  remote_hosts : List String
  remote_port_command : String
  hub_api_url : String
  /-- the orchestrator default `self.hub.api_url` that the rewrite targets -/
  hub_default_api_url : String

/-- Return value of `start`: Python `False` (returned when the negotiated
port is missing or 0), Python `None` (returned when the launched pid is
negative), or the `(host, port)` pair. -/
inductive StartResult where
  | failure_false
  | failure_none
  | started (host : String) (port : Int)
deriving Repr, DecidableEq

/-- `start`: chooses a host, negotiates a port (returning `False` when the
port is `None` or 0; the `self.remote_host is None` disjunct of that check
cannot fire, the chosen host being a string), stores the stringified port,
rewrites the argument list (given here as `cmd`, the already-extended
`self.cmd + self.get_args()`), joins it with spaces, launches it via
`exec_notebook`, stores the pid, and returns `None` when the pid is
negative, else the `(host, port)` pair.  Reading the ssh identity,
certificate staging and upload, the tunnel-script side effects and
logging are local/remote IO that does not affect the returned value and
is omitted here. -/
def start (cfg : StartConfig) (st : SpawnerState) (cmd : List String)
    (env : List (String × String)) (r : Nat)
    (run : String → RemoteResult) (run_bash : String → RemoteResult) :
    Except PyError (SpawnerState × StartResult) := do
  let host ← choose_remote_host cfg.remote_hosts r
  let st1 := { st with remote_host := host }
  let (ip, port) ← (remote_random_port cfg.remote_port_command st1 run).2
  let st2 := { st1 with remote_host := ip }
  match port with
  | none => return (st2, .failure_false)
  | some p =>
    if p = 0 then return (st2, .failure_false)
    else
      let st3 := { st2 with remote_port := toString p }
      let cmd1 := rewrite_hub_api cfg.hub_api_url cfg.hub_default_api_url cmd
      let cmd2 := rewrite_port_flag p cmd1
      let remote_cmd := String.intercalate " " cmd2
      let pid ← (exec_notebook remote_cmd env run_bash).2
      let st4 := { st3 with pid := pid }
      if pid < 0 then return (st4, .failure_none)
      else return (st4, .started st4.remote_host p)

/-- C8: the rendered launch script is a deterministic function of the
command and the environment mapping (identical inputs give identical
strings; the user identity only names the local run file, not the script
body), and it consists of the shebang line followed by exactly one
`export KEY=VALUE` line per environment entry, in the mapping's iteration
order, followed by the fixed tail lines and the command line. -/
theorem bash_script_spec :
    (∀ (c1 c2 : String) (e1 e2 : List (String × String)),
      c1 = c2 → e1 = e2 → bash_script c1 e1 = bash_script c2 e2)
    ∧ (∀ (c : String) (env : List (String × String)),
        bash_script c env =
          "#!/bin/bash\n"
          ++ String.join (env.map (fun p => "export " ++ p.1 ++ "=" ++ p.2 ++ "\n"))
          ++ "unset XDG_RUNTIME_DIR\n"
          ++ "touch .jupyter.log\n"
          ++ "chmod 600 .jupyter.log\n"
          ++ (c ++ " < /dev/null >> .jupyter.log 2>&1 & pid=$!\n")
          ++ "echo $pid\n") := by
  constructor
  · intro c1 c2 e1 e2 hc he
    rw [hc, he]
  · intro c env
    show (env.foldl
        (fun acc item => acc ++ ("export " ++ item.1 ++ "=" ++ item.2 ++ "\n"))
        "#!/bin/bash\n")
        ++ "unset XDG_RUNTIME_DIR\n"
        ++ "touch .jupyter.log\n"
        ++ "chmod 600 .jupyter.log\n"
        ++ (c ++ " < /dev/null >> .jupyter.log 2>&1 & pid=$!\n")
        ++ "echo $pid\n" = _
    rw [foldl_append_join (fun p => "export " ++ p.1 ++ "=" ++ p.2 ++ "\n") env]

/-- Witness for `bash_script_spec`: determinism at equal concrete inputs,
and the fully rendered two-entry script. -/
theorem bash_script_spec_witness :
    bash_script "jupyterhub-singleuser --port=9000" [("A", "1"), ("B", "2")] =
      "#!/bin/bash\nexport A=1\nexport B=2\nunset XDG_RUNTIME_DIR\ntouch .jupyter.log\nchmod 600 .jupyter.log\njupyterhub-singleuser --port=9000 < /dev/null >> .jupyter.log 2>&1 & pid=$!\necho $pid\n"
    ∧ bash_script "cmd" [("A", "1")] = bash_script "cmd" [("A", "1")] := by
  refine ⟨?_, bash_script_spec.1 "cmd" "cmd" [("A", "1")] [("A", "1")] rfl rfl⟩
  rw [bash_script_spec.2 "jupyterhub-singleuser --port=9000" [("A", "1"), ("B", "2")]]
  rfl

/-- C3: port negotiation issues exactly one remote session (running the
configured helper command); non-empty stdout that parses as a base-10
integer yields that integer (in particular stdout "54321\n" yields
54321); empty stdout yields `none`, which `start` turns into the `False`
failure marker without an exception; non-empty stdout that does not parse
is a `ValueError` rather than a returned value. -/
theorem remote_random_port_spec (cmd : String) (st : SpawnerState)
    (run : String → RemoteResult) :
    (remote_random_port cmd st run).1 = [cmd]
    ∧ (∀ n : Int, (run cmd).stdout ≠ "" → pythonInt (run cmd).stdout = some n →
        (remote_random_port cmd st run).2 = .ok (st.remote_host, some n))
    ∧ ((run cmd).stdout = "" →
        (remote_random_port cmd st run).2 = .ok (st.remote_host, none))
    ∧ ((run cmd).stdout ≠ "" → pythonInt (run cmd).stdout = none →
        (remote_random_port cmd st run).2 = .error .valueError)
    ∧ pythonInt "54321\n" = some 54321
    ∧ (∀ (cfg : StartConfig) (st2 : SpawnerState) (c : List String)
        (env : List (String × String)) (r : Nat)
        (run2 run_bash : String → RemoteResult) (host : String),
        choose_remote_host cfg.remote_hosts r = .ok host →
        (run2 cfg.remote_port_command).stdout = "" →
        start cfg st2 c env r run2 run_bash =
          .ok ({ st2 with remote_host := host }, .failure_false)) := by
  refine ⟨rfl, ?_, ?_, ?_, rfl, ?_⟩
  · intro n hne hparse
    simp [remote_random_port, hne, hparse, Except.map]
  · intro hempty
    simp [remote_random_port, hempty, Except.map]
  · intro hne hparse
    simp [remote_random_port, hne, hparse, Except.map]
  · intro cfg st2 c env r run2 run_bash host hchoose hempty
    simp [start, remote_random_port, hchoose, hempty, Bind.bind, Except.bind,
      Except.map, Pure.pure, Except.pure]

/-- Witness for `remote_random_port_spec`: a "54321\n" oracle yields port
54321, an empty-stdout oracle yields `none`, and with the empty-stdout
oracle `start` returns the `False` marker. -/
theorem remote_random_port_spec_witness :
    (remote_random_port remote_port_command_default default_state
        (fun _ => { stdout := "54321\n", stderr := "", exit_status := 0 })).2 =
      .ok ("remote_host", some 54321)
    ∧ (remote_random_port remote_port_command_default default_state
        (fun _ => { stdout := "", stderr := "x", exit_status := 1 })).2 =
      .ok ("remote_host", none)
    ∧ start
        { remote_hosts := ["h1"], remote_port_command := remote_port_command_default,
          hub_api_url := "", hub_default_api_url := "" }
        default_state [] [] 0
        (fun _ => { stdout := "", stderr := "x", exit_status := 1 })
        (fun _ => { stdout := "", stderr := "", exit_status := 0 }) =
      .ok ({ pid := 0, remote_host := "h1", remote_port := "22" }, .failure_false) := by
  have h1 := remote_random_port_spec remote_port_command_default default_state
    (fun _ => { stdout := "54321\n", stderr := "", exit_status := 0 })
  have h2 := remote_random_port_spec remote_port_command_default default_state
    (fun _ => { stdout := "", stderr := "x", exit_status := 1 })
  refine ⟨h1.2.1 54321 (by decide) rfl, h2.2.2.1 rfl, ?_⟩
  exact h2.2.2.2.2.2
    { remote_hosts := ["h1"], remote_port_command := remote_port_command_default,
      hub_api_url := "", hub_default_api_url := "" }
    default_state [] [] 0
    (fun _ => { stdout := "", stderr := "x", exit_status := 1 })
    (fun _ => { stdout := "", stderr := "", exit_status := 0 })
    "h1" rfl rfl

/-- C4: when the remote launch script's stdout is empty, `exec_notebook`
returns the sentinel -1 instead of raising; and whenever the launch
step of `start` yields a negative pid, `start` returns the `None` failure
marker (with the pid recorded) rather than a `(host, port)` pair. -/
theorem exec_notebook_sentinel_spec :
    (∀ (command : String) (env : List (String × String))
        (run_bash : String → RemoteResult),
      (run_bash (bash_script command env)).stdout = "" →
      (exec_notebook command env run_bash).2 = .ok (-1))
    ∧ (∀ (cfg : StartConfig) (st : SpawnerState) (cmd : List String)
        (env : List (String × String)) (r : Nat)
        (run run_bash : String → RemoteResult) (host : String) (p pid : Int),
        choose_remote_host cfg.remote_hosts r = .ok host →
        (run cfg.remote_port_command).stdout ≠ "" →
        pythonInt (run cfg.remote_port_command).stdout = some p →
        p ≠ 0 →
        (exec_notebook (String.intercalate " "
            (rewrite_port_flag p
              (rewrite_hub_api cfg.hub_api_url cfg.hub_default_api_url cmd)))
            env run_bash).2 = .ok pid →
        pid < 0 →
        start cfg st cmd env r run run_bash =
          .ok ({ pid := pid, remote_host := host, remote_port := toString p },
            .failure_none)) := by
  constructor
  · intro command env run_bash hempty
    simp [exec_notebook, hempty]
  · intro cfg st cmd env r run run_bash host p pid hchoose hne hparse hp hpid hneg
    simp [start, remote_random_port, hchoose, hne, hparse, hp, hpid, hneg,
      Bind.bind, Except.bind, Except.map, Pure.pure, Except.pure]

/-- Witness for `exec_notebook_sentinel_spec`: an empty-stdout launch
yields -1, and a start whose launch prints nothing ends as the `None`
failure marker with pid -1. -/
theorem exec_notebook_sentinel_spec_witness :
    (exec_notebook "cmd" []
        (fun _ => { stdout := "", stderr := "", exit_status := 0 })).2 = .ok (-1)
    ∧ start
        { remote_hosts := ["h1"], remote_port_command := remote_port_command_default,
          hub_api_url := "", hub_default_api_url := "" }
        default_state [] [] 0
        (fun _ => { stdout := "9000\n", stderr := "", exit_status := 0 })
        (fun _ => { stdout := "", stderr := "", exit_status := 0 }) =
      .ok ({ pid := -1, remote_host := "h1", remote_port := "9000" }, .failure_none) := by
  constructor
  · exact exec_notebook_sentinel_spec.1 "cmd" []
      (fun _ => { stdout := "", stderr := "", exit_status := 0 }) rfl
  · exact exec_notebook_sentinel_spec.2
      { remote_hosts := ["h1"], remote_port_command := remote_port_command_default,
        hub_api_url := "", hub_default_api_url := "" }
      default_state [] [] 0
      (fun _ => { stdout := "9000\n", stderr := "", exit_status := 0 })
      (fun _ => { stdout := "", stderr := "", exit_status := 0 })
      "h1" 9000 (-1) rfl (by decide) rfl (by decide)
      (exec_notebook_sentinel_spec.1 _ []
        (fun _ => { stdout := "", stderr := "", exit_status := 0 }) rfl)
      (by decide)

/-- C6: restoring persisted state into a freshly constructed spawner (all
traits at their defaults) leaves `pid` at 0 when the `pid` key is absent
and `remote_host` at the sentinel string when the `remote_host` key is
absent, for every persisted mapping. -/
theorem load_state_defaults_spec (m : PersistedState) :
    (m.pid = none → (load_state default_state m).pid = 0)
    ∧ (m.remote_host = none →
        (load_state default_state m).remote_host = "remote_host") := by
  constructor
  · intro h
    cases hr : m.remote_host <;> simp [load_state, h, hr, default_state]
  · intro h
    cases hp : m.pid <;> simp [load_state, h, hp, default_state]

/-- Witness for `load_state_defaults_spec`: the empty mapping leaves both
fields at their defaults. -/
theorem load_state_defaults_spec_witness :
    (load_state default_state { pid := none, remote_host := none }).pid = 0
    ∧ (load_state default_state { pid := none, remote_host := none }).remote_host =
      "remote_host" := by
  have h := load_state_defaults_spec { pid := none, remote_host := none }
  exact ⟨h.1 rfl, h.2 rfl⟩

/-- C5 as stated is false: `get_state` includes the `remote_host` key under
Python string truthiness (non-emptiness), so the default sentinel
"remote_host", being non-empty, is itself dumped.  Concretely, the state
`pid = 0, remote_host = "remote_host"` dumps the host key. -/
theorem get_state_sentinel_counterexample :
    ¬ (∀ st : SpawnerState,
        (get_state st).remote_host ≠ none → st.remote_host ≠ "remote_host") := by
  intro h
  exact h { pid := 0, remote_host := "remote_host", remote_port := "22" }
    (by simp [get_state]) rfl

/-- C5 amended: the dumped state contains the `pid` key exactly when
`pid ≠ 0` (then with value `pid`) and the `remote_host` key exactly when
the host string is non-empty (then with value `remote_host`); in
particular the default sentinel host, being a non-empty string, is
dumped. -/
theorem get_state_spec (st : SpawnerState) :
    ((get_state st).pid ≠ none ↔ st.pid ≠ 0)
    ∧ (st.pid ≠ 0 → (get_state st).pid = some st.pid)
    ∧ ((get_state st).remote_host ≠ none ↔ st.remote_host ≠ "")
    ∧ (st.remote_host ≠ "" → (get_state st).remote_host = some st.remote_host)
    ∧ (get_state default_state).remote_host = some "remote_host" := by
  refine ⟨?_, ?_, ?_, ?_, ?_⟩
  · by_cases h : st.pid = 0 <;> simp [get_state, h]
  · intro h; simp [get_state, h]
  · by_cases h : st.remote_host = "" <;> simp [get_state, h]
  · intro h; simp [get_state, h]
  · simp [get_state, default_state]

/-- Witness for `get_state_spec`: a running state dumps both keys, and the
default state still dumps the sentinel host. -/
theorem get_state_spec_witness :
    (get_state { pid := 1234, remote_host := "h1", remote_port := "22" }).pid =
      some 1234
    ∧ (get_state default_state).remote_host = some "remote_host" := by
  have h := get_state_spec { pid := 1234, remote_host := "h1", remote_port := "22" }
  have h2 := get_state_spec default_state
  exact ⟨h.2.1 (by decide), h2.2.2.2.2⟩

/-- C7: host selection over a single-element pool always returns that
element; over an empty pool it fails with the empty-pool error (the
`IndexError` that `random.choice` raises, which the specification's
taxonomy labels `ConfigurationError`); over any non-empty pool it returns
an element of the pool.  It is a pure function of the pool and the random
draw, so it has no side effects. -/
theorem choose_remote_host_spec :
    (∀ (x : String) (r : Nat), choose_remote_host [x] r = .ok x)
    ∧ (∀ r : Nat, choose_remote_host [] r = .error .indexError)
    ∧ (∀ (pool : List String) (r : Nat), pool ≠ [] →
        ∃ h, choose_remote_host pool r = .ok h ∧ h ∈ pool) := by
  refine ⟨?_, ?_, ?_⟩
  · intro x r
    simp [choose_remote_host, random_choice]
  · intro r
    rfl
  · intro pool r hne
    have hlen : pool.length ≠ 0 := fun h0 => hne (List.length_eq_zero.mp h0)
    refine ⟨pool.get ⟨r % pool.length, Nat.mod_lt _ (Nat.pos_of_ne_zero hlen)⟩, ?_, ?_⟩
    · simp [choose_remote_host, random_choice, hlen]
    · exact pool.get_mem _ _

/-- Witness for `choose_remote_host_spec`: the singleton pool yields its
element, the empty pool errors, and a two-element pool yields a member. -/
theorem choose_remote_host_spec_witness :
    choose_remote_host ["h1"] 7 = .ok "h1"
    ∧ choose_remote_host [] 7 = .error .indexError
    ∧ ∃ h, choose_remote_host ["h1", "h2"] 7 = .ok h ∧ h ∈ ["h1", "h2"] := by
  exact ⟨choose_remote_host_spec.1 "h1" 7, choose_remote_host_spec.2.1 7,
    choose_remote_host_spec.2.2 ["h1", "h2"] 7 (by simp)⟩

/-- Python dict of strings, as a partial map (`none` models an absent
key). -/
def StrDict : Type := String → Option String

/-- In-place dict item assignment `d[k] = v`. -/
def dict_set (d : StrDict) (k v : String) : StrDict :=
  fun q => if q = k then some v else d q

/-- Strings ending a run of slashes removed (`rstrip('/')`). -/
def rstrip_slash (s : String) : String :=
  String.mk ((s.data.reverse.dropWhile (fun c => c = '/')).reverse)

/-- `os.path.expanduser` (posix): a path not starting with `~` is
unchanged; `~` followed directly by a separator (or nothing) expands to
the home directory (trailing slashes stripped, an all-slash home giving
`/`); the `~user` form needs the password database, modelled here as an
unknown user, for which posixpath returns the path unchanged. -/
def expanduser (home : String) (path : String) : String :=
  match path.data with
  | '~' :: rest =>
    let user := rest.takeWhile (fun c => c ≠ '/')
    let afterUser := rest.dropWhile (fun c => c ≠ '/')
    if user ≠ [] then path
    else
      let userhome := rstrip_slash home
      let result := userhome ++ String.mk afterUser
      if result = "" then "/" else result
  | _ => path

/-- `os.path.basename` (posix): the part after the last separator. -/
def basename (p : String) : String :=
  String.mk ((p.data.reverse.takeWhile (fun c => c ≠ '/')).reverse)

/-- `os.path.join a b` (posix, two arguments): an absolute `b` wins;
otherwise `b` is appended to `a` with a separator unless `a` is empty or
already ends in one. -/
def path_join (a b : String) : String :=
  match b.data with
  | '/' :: _ => b
  | _ =>
    match (a.data.reverse : List Char) with
    | [] => a ++ b
    | c :: _ => if c = '/' then a ++ b else a ++ "/" ++ b

/-- `stage_certs(paths, dest)`: expands the `keyfile`, `certfile` and
`cafile` entries of the caller's dict in place, moves/copies the files
into the staging directory `dest` (filesystem effects, omitted; `dest`
does not influence the dicts), and returns a fresh dict mapping the same
three keys to `resource_path`-joined basenames of the (now expanded)
entries.  `none` models the `KeyError` on a missing key.  Result: the
mutated input dict and the returned dict. -/
def stage_certs (resource_path home : String) (paths : StrDict) :
    Option (StrDict × StrDict) := do
  let kf ← paths "keyfile"
  let cf ← paths "certfile"
  let ca ← paths "cafile"
  let paths1 := dict_set paths "keyfile" (expanduser home kf)
  let paths2 := dict_set paths1 "certfile" (expanduser home cf)
  let paths3 := dict_set paths2 "cafile" (expanduser home ca)
  let key_base_name := basename (expanduser home kf)
  let cert_base_name := basename (expanduser home cf)
  let ca_base_name := basename (expanduser home ca)
  let key := path_join resource_path key_base_name
  let cert := path_join resource_path cert_base_name
  let ca2 := path_join resource_path ca_base_name
  let ret : StrDict := fun q =>
    if q = "keyfile" then some key
    else if q = "certfile" then some cert
    else if q = "cafile" then some ca2
    else none
  return (paths3, ret)

/-- `stage_ssh_keys(paths, dest)`: expands the `private_key_file` and
`public_key_file` entries of the caller's dict in place, copies the files
into the staging directory `dest` (filesystem effects, omitted), and
returns a fresh dict mapping `private_key_path` / `public_key_path` to
`ssh_forward_tunnel_client_path`-joined basenames of the (now expanded)
entries. -/
def stage_ssh_keys (ssh_forward_tunnel_client_path home : String)
    (paths : StrDict) : Option (StrDict × StrDict) := do
  let pk ← paths "private_key_file"
  let pub ← paths "public_key_file"
  let paths1 := dict_set paths "private_key_file" (expanduser home pk)
  let paths2 := dict_set paths1 "public_key_file" (expanduser home pub)
  let private_key_file := basename (expanduser home pk)
  let public_key_file := basename (expanduser home pub)
  let private_key_path := path_join ssh_forward_tunnel_client_path private_key_file
  let public_key_path := path_join ssh_forward_tunnel_client_path public_key_file
  let ret : StrDict := fun q =>
    if q = "private_key_path" then some private_key_path
    else if q = "public_key_path" then some public_key_path
    else none
  return (paths2, ret)

/-- C10: both staging operations mutate the caller's dict in place —
`stage_certs` replaces the `keyfile`, `certfile` and `cafile` entries and
`stage_ssh_keys` the `private_key_file` and `public_key_file` entries
with their user-home-expanded forms — leave every other entry of the
input dict unchanged, and in addition return the new remote destination
paths (resource-directory-joined basenames of the expanded sources). -/
theorem stage_spec (resource_path tunnel_path home : String) (paths : StrDict)
    (kf cf ca pk pub : String)
    (hkf : paths "keyfile" = some kf) (hcf : paths "certfile" = some cf)
    (hca : paths "cafile" = some ca)
    (hpk : paths "private_key_file" = some pk)
    (hpub : paths "public_key_file" = some pub) :
    (∃ mutated ret, stage_certs resource_path home paths = some (mutated, ret)
      ∧ mutated "keyfile" = some (expanduser home kf)
      ∧ mutated "certfile" = some (expanduser home cf)
      ∧ mutated "cafile" = some (expanduser home ca)
      ∧ (∀ q, q ≠ "keyfile" → q ≠ "certfile" → q ≠ "cafile" →
          mutated q = paths q)
      ∧ ret "keyfile" = some (path_join resource_path (basename (expanduser home kf)))
      ∧ ret "certfile" = some (path_join resource_path (basename (expanduser home cf)))
      ∧ ret "cafile" = some (path_join resource_path (basename (expanduser home ca))))
    ∧ (∃ mutated ret, stage_ssh_keys tunnel_path home paths = some (mutated, ret)
      ∧ mutated "private_key_file" = some (expanduser home pk)
      ∧ mutated "public_key_file" = some (expanduser home pub)
      ∧ (∀ q, q ≠ "private_key_file" → q ≠ "public_key_file" →
          mutated q = paths q)
      ∧ ret "private_key_path" =
          some (path_join tunnel_path (basename (expanduser home pk)))
      ∧ ret "public_key_path" =
          some (path_join tunnel_path (basename (expanduser home pub)))) := by
  constructor
  · refine ⟨dict_set (dict_set (dict_set paths "keyfile" (expanduser home kf))
        "certfile" (expanduser home cf)) "cafile" (expanduser home ca),
      fun q =>
        if q = "keyfile" then
          some (path_join resource_path (basename (expanduser home kf)))
        else if q = "certfile" then
          some (path_join resource_path (basename (expanduser home cf)))
        else if q = "cafile" then
          some (path_join resource_path (basename (expanduser home ca)))
        else none,
      ?_, ?_, ?_, ?_, ?_, ?_, ?_, ?_⟩
    · simp [stage_certs, hkf, hcf, hca]
    · simp [dict_set]
    · simp [dict_set]
    · simp [dict_set]
    · intro q h1 h2 h3
      simp [dict_set, h1, h2, h3]
    · simp
    · simp
    · simp
  · refine ⟨dict_set (dict_set paths "private_key_file" (expanduser home pk))
        "public_key_file" (expanduser home pub),
      fun q =>
        if q = "private_key_path" then
          some (path_join tunnel_path (basename (expanduser home pk)))
        else if q = "public_key_path" then
          some (path_join tunnel_path (basename (expanduser home pub)))
        else none,
      ?_, ?_, ?_, ?_, ?_, ?_⟩
    · simp [stage_ssh_keys, hpk, hpub]
    · simp [dict_set]
    · simp [dict_set]
    · intro q h1 h2
      simp [dict_set, h1, h2]
    · simp
    · simp

/-- Witness for `stage_spec` at a concrete five-entry dict (plus an
unrelated entry that must survive): the mutated entries are the expanded
paths and the returned dicts hold the joined destinations. -/
theorem stage_spec_witness :
    ∃ mutated ret,
      stage_certs ".jupyterhub-resources" "/home/u"
        (fun q =>
          if q = "keyfile" then some "~/k.key"
          else if q = "certfile" then some "~/c.crt"
          else if q = "cafile" then some "/etc/ca.pem"
          else if q = "private_key_file" then some "~/.ssh/id_rsa"
          else if q = "public_key_file" then some "~/.ssh/id_rsa.pub"
          else if q = "other" then some "keep"
          else none) = some (mutated, ret)
      ∧ mutated "keyfile" = some "/home/u/k.key"
      ∧ mutated "other" = some "keep"
      ∧ ret "keyfile" = some ".jupyterhub-resources/k.key" := by
  have h := stage_spec ".jupyterhub-resources" "~/.ssh" "/home/u"
    (fun q =>
      if q = "keyfile" then some "~/k.key"
      else if q = "certfile" then some "~/c.crt"
      else if q = "cafile" then some "/etc/ca.pem"
      else if q = "private_key_file" then some "~/.ssh/id_rsa"
      else if q = "public_key_file" then some "~/.ssh/id_rsa.pub"
      else if q = "other" then some "keep"
      else none)
    "~/k.key" "~/c.crt" "/etc/ca.pem" "~/.ssh/id_rsa" "~/.ssh/id_rsa.pub"
    rfl rfl rfl rfl rfl
  obtain ⟨⟨mutated, ret, heq, hk, _, _, hframe, hrk, _, _⟩, _⟩ := h
  refine ⟨mutated, ret, heq, ?_, ?_, ?_⟩
  · rw [hk]; rfl
  · rw [hframe "other" (by decide) (by decide) (by decide)]; rfl
  · rw [hrk]; rfl

end CloudSSHSpawner
